import Mathlib

/-!
Verification of the SoulBrowser Python SDK streaming client.

Shallow embedding of `src/sdk/python/soulbrowser_sdk/client.py`,
`src/sdk/python/soulbrowser_sdk/gateway.py` and the example consumers
`src/examples/sdk/python/live_companion.py` and
`src/examples/sdk/python/chat_plan.py`.  JSON values decoded by
`json.loads` are modelled by an inductive `Json` type; Python `dict`
objects with string keys are modelled as association lists with the
first binding for a key authoritative (Python dictionaries hold at most
one binding per key, so the two agree on every dictionary that can
arise at runtime).
-/

namespace SoulBrowser

/-- A JSON value, the result type of Python `json.loads`. -/
inductive Json where
  | null
  | bool (b : Bool)
  | num (n : Int)
  | str (s : String)
  | arr (elems : List Json)
  | obj (fields : List (String × Json))

/-- Python `dict.get(key)` on an object field list: the value bound to
`key`, or `none` when the key is absent. -/
def getField : List (String × Json) → String → Option Json
  | [], _ => none
  | (k, v) :: rest, key => if k = key then some v else getField rest key

/-- Terminal-state detector, transcribed from the condition at
`chat_plan.py` line 38 (and equivalently `live_companion.py` lines
61-64):
`event.get('event') == 'status' and
 event.get('status', \x7b\x7d).get('status') in \x7b'success', 'failed'\x7d`.
Returns `none` when the Python expression raises `AttributeError`
(the event is not a dict, or its `status` field holds a non-dict
value), otherwise `some` of the boolean the expression evaluates to. -/
def isTerminal (event : Json) : Option Bool :=
  match event with
  | .obj fields =>
    let kindIsStatus : Bool :=
      match getField fields "event" with
      | some (.str s) => s == "status"
      | _ => false
    if kindIsStatus then
      match (getField fields "status").getD (.obj []) with
      | .obj statusFields =>
        some (match getField statusFields "status" with
              | some (.str s) => s == "success" || s == "failed"
              | _ => false)
      | _ => none
    else some false
  | _ => none

/-- Spec-side extractor: the event kind string (`event` field), when
the event is an object whose `event` field holds a string. -/
def eventKind (event : Json) : Option String :=
  match event with
  | .obj fields =>
    match getField fields "event" with
    | some (.str s) => some s
    | _ => none
  | _ => none

/-- Spec-side extractor: the status value string carried by a status
payload (`event.status.status`), when that path exists and holds a
string. -/
def statusValue (event : Json) : Option String :=
  match event with
  | .obj fields =>
    match getField fields "status" with
    | some (.obj statusFields) =>
      match getField statusFields "status" with
      | some (.str s) => some s
      | _ => none
    | _ => none
  | _ => none

/-- A status event frame as it appears on the stream, e.g.
the frame decoding to the object with `event = "status"` and
`status.status = s`. -/
def statusEvent (s : String) : Json :=
  .obj [("event", .str "status"), ("status", .obj [("status", .str s)])]

/-- The overlay event of the three-frame scenario:
`event = "overlay"`, `overlay.source = "vision"`,
`overlay.data.title = "Example"`. -/
def overlayEvent : Json :=
  .obj [("event", .str "overlay"),
        ("overlay", .obj [("source", .str "vision"),
                          ("data", .obj [("title", .str "Example")])])]

/-- Errors the decode step can report.  `json.loads` raises
`json.JSONDecodeError` on text that is not well-formed JSON, modelled
as `malformedFrame`.  `unknownEventShape` is the error the spec
postulates for a well-formed frame whose kind field is missing; it is
part of the error vocabulary so that its absence from the code is
expressible. -/
inductive DecodeError where
  | malformedFrame (raw : String)
  | unknownEventShape
deriving DecidableEq

/-- One raw text frame from the transport, classified by whether
`json.loads` accepts it: `valid v` is a frame whose JSON parse yields
`v`, `malformed raw` is a frame `json.loads` rejects. -/
inductive Frame where
  | valid (value : Json)
  | malformed (raw : String)

/-- Python `json.loads` at the frame boundary: parse a valid frame to
its JSON value, raise `JSONDecodeError` (modelled as
`malformedFrame`) on any other text. -/
def jsonLoads : Frame → Except DecodeError Json
  | .valid v => .ok v
  | .malformed raw => .error (.malformedFrame raw)

/-- How an iteration of the receive loop ends: `closed` when
`ws.recv()` returned `None` and the loop broke, `raised e` when
`json.loads` raised on a frame and the exception escaped the
generator, `pending` when the modelled trace of inbound messages is
exhausted while `recv` would still be blocking. -/
inductive StreamOutcome where
  | closed
  | raised (e : DecodeError)
  | pending
deriving DecidableEq

/-- The receive loop of `SoulBrowserClient.iter_task_stream`
(`client.py` lines 149-154), transcribed over a trace of transport
messages (`none` models `ws.recv()` returning `None`):
repeat: receive a message; stop on `None`; otherwise yield
`json.loads(message)`.  Returns the list of yielded events together
with how the loop ended. -/
def iterTaskStream : List (Option Frame) → List Json × StreamOutcome
  | [] => ([], .pending)
  | none :: _ => ([], .closed)
  | some f :: rest =>
    match jsonLoads f with
    | .error e => ([], .raised e)
    | .ok v =>
      let r := iterTaskStream rest
      (v :: r.1, r.2)

/-- The raw text of the spec scenario frame that is not valid JSON. -/
def malformedRaw : String := "\x7bnot json"

/-- The C2 scenario trace: one malformed frame between two valid
status frames, then a clean close. -/
def c2Stream : List (Option Frame) :=
  [some (.valid (statusEvent "running")),
   some (.malformed malformedRaw),
   some (.valid (statusEvent "success")),
   none]

/-- A well-formed frame value carrying no `event` (kind) field. -/
def noKindValue : Json := .obj [("payload", .str "x")]

/-- The three-frame scenario trace of the spec: status running, then
an overlay, then status success, then a clean close. -/
def scenarioStream : List (Option Frame) :=
  [some (.valid (statusEvent "running")),
   some (.valid overlayEvent),
   some (.valid (statusEvent "success")),
   none]

/-- A three-frame trace whose middle frame is malformed: an overlay,
a frame that is not valid JSON, and a queued status, then a clean
close. -/
def c5Stream : List (Option Frame) :=
  [some (.valid overlayEvent),
   some (.malformed "not json at all"),
   some (.valid (statusEvent "queued")),
   none]

/-- Lookup in a Python string-valued dict (association list, first
binding authoritative). -/
def dictGet : List (String × String) → String → Option String
  | [], _ => none
  | (k1, v1) :: rest, k => if k1 = k then some v1 else dictGet rest k

/-- Python dict assignment `d[k] = v`: replace the binding in place
when the key is present, append it otherwise. -/
def dictSet : List (String × String) → String → String → List (String × String)
  | [], k, v => [(k, v)]
  | (k1, v1) :: rest, k, v =>
    if k1 = k then (k, v) :: rest else (k1, v1) :: dictSet rest k v

/-- Python `d.update(es)` (also the tail of a `**`-merge in a dict
literal): assign every binding of `es` into `d`, in order. -/
def dictUpdate (d : List (String × String)) (es : List (String × String)) :
    List (String × String) :=
  es.foldl (fun acc kv => dictSet acc kv.1 kv.2) d

/-- Python key-membership test `k in d`. -/
def containsKey : List (String × String) → String → Bool
  | [], _ => false
  | (k1, _) :: rest, k => if k1 = k then true else containsKey rest k

/-- ASCII lowercasing of a character, agreeing with Python
`str.lower()` on the ASCII range header keys are drawn from. -/
def lowerChar (c : Char) : Char :=
  if 65 <= c.toNat ∧ c.toNat <= 90 then Char.ofNat (c.toNat + 32) else c

/-- ASCII lowercasing of a header key (Python `key.lower()`). -/
def lowerKey (s : String) : String :=
  String.mk (s.data.map lowerChar)

/-- Python `x or y` on an optional string: `y` when `x` is `None` or
the empty string (falsy), else the string itself. -/
def pyOrStr : Option String → String → String
  | none, d => d
  | some s, d => if s = "" then d else s

/-- State of `SoulBrowserGatewayClient` relevant to header building:
the stored tenant, the optional api key and tenant token, and the
static headers given at construction (`gateway.py` lines 24-32). -/
structure GatewayClient where
  tenantId : String
  apiKey : Option String
  tenantToken : Option String
  staticHeaders : List (String × String)

/-- Constructor `SoulBrowserGatewayClient.__init__` (`gateway.py`
lines 24-32): raises `ValueError` (`error`) when `tenant_id` is falsy,
otherwise stores the tenant, auth material and static headers
(`headers or \x7b\x7d`). -/
def mkGatewayClient (tenantId : String) (apiKey tenantToken : Option String)
    (headers : Option (List (String × String))) : Except String GatewayClient :=
  if tenantId = "" then .error "tenant_id is required"
  else .ok { tenantId := tenantId, apiKey := apiKey, tenantToken := tenantToken,
             staticHeaders := headers.getD [] }

/-- Mutator `set_tenant` (`gateway.py` lines 38-41): raises
`ValueError` on an empty tenant id, leaving the stored tenant
unchanged (the raise precedes the assignment); the boolean records
whether the call raised. -/
def setTenant (c : GatewayClient) (tenantId : String) : GatewayClient × Bool :=
  if tenantId = "" then (c, true)
  else ({ c with tenantId := tenantId }, false)

/-- Header dict after the literal of `_build_headers` (`gateway.py`
lines 84-88): `content-type` and `x-tenant-id` (per-call tenant when
truthy, else the stored tenant), then the static headers merged over
them, then the per-call overrides applied (`headers.update(overrides)`,
a no-op when `overrides` is `None` or empty). -/
def mergedHeaders (c : GatewayClient) (tenantId : Option String)
    (overrides : Option (List (String × String))) : List (String × String) :=
  dictUpdate
    (dictUpdate
      [("content-type", "application/json"),
       ("x-tenant-id", pyOrStr tenantId c.tenantId)]
      c.staticHeaders)
    (overrides.getD [])

/-- The `Authorization` step of `_build_headers` (`gateway.py` lines
91-93): when an api key is configured (truthy) and no existing key
lowercases to `authorization`, assign
`Authorization: Bearer <api_key>`. -/
def authStep (c : GatewayClient) (headers : List (String × String)) :
    List (String × String) :=
  match c.apiKey with
  | some key =>
    if key ≠ "" ∧ headers.all (fun p => ¬ lowerKey p.1 = "authorization") then
      dictSet headers "Authorization" ("Bearer " ++ key)
    else headers
  | none => headers

/-- The `x-tenant-token` step of `_build_headers` (`gateway.py` lines
94-95): when a tenant token is configured (truthy) and the key
`x-tenant-token` is not already present (case-sensitive membership),
assign it. -/
def tokenStep (c : GatewayClient) (headers : List (String × String)) :
    List (String × String) :=
  match c.tenantToken with
  | some tok =>
    if tok ≠ "" ∧ headers.all (fun p => ¬ p.1 = "x-tenant-token") then
      dictSet headers "x-tenant-token" tok
    else headers
  | none => headers

/-- `_build_headers` (`gateway.py` lines 78-96): the merged dict, then
the `Authorization` step, then the `x-tenant-token` step. -/
def buildHeaders (c : GatewayClient) (tenantId : Option String)
    (overrides : Option (List (String × String))) : List (String × String) :=
  tokenStep c (authStep c (mergedHeaders c tenantId overrides))

/-- State of a client touched by `close` (`client.py` lines 56-58, and
identically `gateway.py` lines 34-36): whether the client owns its
HTTP handle and whether that handle has been closed. -/
structure ClientState where
  ownsHttp : Bool
  httpClosed : Bool

/-- Method `close`: release the HTTP handle when the client owns it
(`httpx.Client.close` marks the handle closed); a no-op otherwise.
The method body raises nothing. -/
def close (s : ClientState) : ClientState :=
  if s.ownsHttp then { s with httpClosed := true } else s

/-- The components of the parsed base endpoint URL
(`httpx.URL(self._base_url)`): scheme, host, and optional port, with
`port` `none` when the URL carries no explicit port. -/
structure BaseURL where
  scheme : String
  host : String
  port : Option Nat

/-- `_build_ws_url` (`client.py` lines 168-171): upgrade the base
scheme (`https` to `wss`, anything else to `ws`), keep the host, take
`base.port or (443 if scheme == wss else 80)` — Python `or` also
replaces a port of `0`, which is falsy — and append the path. -/
def buildWsUrl (base : BaseURL) (path : String) : String :=
  let scheme := if base.scheme = "https" then "wss" else "ws"
  let port : Nat :=
    match base.port with
    | some p => if p = 0 then (if scheme = "wss" then 443 else 80) else p
    | none => if scheme = "wss" then 443 else 80
  scheme ++ "://" ++ base.host ++ ":" ++ toString port ++ path

/-- The socket URL the spec claims: upgrade the scheme, preserve host
and port, default the port to 443 (`wss`) or 80 (`ws`) only when the
base URL has none, append the path unchanged. -/
def wsUrlClaimed (base : BaseURL) (path : String) : String :=
  let scheme := if base.scheme = "https" then "wss" else "ws"
  let port : Nat :=
    match base.port with
    | some p => p
    | none => if base.scheme = "https" then 443 else 80
  scheme ++ "://" ++ base.host ++ ":" ++ toString port ++ path

/-- The socket URL builder as amended: identical to the claimed one
except that an explicit port of `0` (falsy in Python) is also replaced
by the scheme default. -/
def wsUrlAmended (base : BaseURL) (path : String) : String :=
  let scheme := if base.scheme = "https" then "wss" else "ws"
  let defaultPort : Nat := if base.scheme = "https" then 443 else 80
  let port : Nat :=
    match base.port with
    | some p => if p = 0 then defaultPort else p
    | none => defaultPort
  scheme ++ "://" ++ base.host ++ ":" ++ toString port ++ path

/-- The stream locator path chosen by `open_task_stream` (`client.py`
lines 141-143) when the caller passes no explicit path. -/
def taskStreamPath (taskId : String) (viaGateway : Bool) : String :=
  if viaGateway then "/v1/tasks/" ++ taskId ++ "/stream"
  else "/api/tasks/" ++ taskId ++ "/stream"

/-- Python truthiness of a JSON value: `None`, `False`, `0`, the empty
string, the empty list and the empty dict are falsy. -/
def pyTruthy : Json → Bool
  | .null => false
  | .bool b => b
  | .num n => n ≠ 0
  | .str s => s ≠ ""
  | .arr elems => ! elems.isEmpty
  | .obj fields => ! fields.isEmpty

/-- Python `str()` of a scalar JSON value, as interpolated into the
stream path f-string; container rendering (never exercised by the
theorems below) is abbreviated to its opening delimiter. -/
def pyStr : Json → String
  | .null => "None"
  | .bool true => "True"
  | .bool false => "False"
  | .num n => toString n
  | .str s => s
  | .arr _ => "["
  | .obj _ => "\x7b"

/-- Outcome of the submission phase of `live_companion.main`
(`live_companion.py` lines 45-56). -/
inductive SubmitResult where
  | rejected
  | typeError
  | accepted (taskId : String) (streamPath : String)
deriving DecidableEq

/-- Plan resolution of `live_companion.main` (`live_companion.py`
line 50): `chat.get('plan', \x7b\x7d).get('plan', \x7b\x7d)`, yielding
`some` of the plan mapping, or `none` when an intermediate value is
present but not a mapping (Python raises `AttributeError` there). -/
def planFields (chatResp : List (String × Json)) : Option (List (String × Json)) :=
  match (getField chatResp "plan").getD (.obj []) with
  | .obj outer =>
    match (getField outer "plan").getD (.obj []) with
    | .obj plan => some plan
    | _ => none
  | _ => none

/-- The submission phase of `live_companion.main` (`live_companion.py`
lines 45-56): resolve the plan mapping, extract `task_id` (default
`None`), raise `SystemExit('Planner did not return a task id')`
(`rejected`) when it is falsy — before any stream is opened — and
otherwise proceed to `open_task_stream`, which derives the stream
locator from the task id (`accepted`).  `typeError` is the
`AttributeError` case of the plan resolution. -/
def submitPhase (chatResp : List (String × Json)) (viaGateway : Bool) : SubmitResult :=
  match planFields chatResp with
  | some plan =>
    let tid := (getField plan "task_id").getD .null
    if pyTruthy tid then
      .accepted (pyStr tid) (taskStreamPath (pyStr tid) viaGateway)
    else .rejected
  | none => .typeError

/-- A chat response whose plan carries the task id `t-1`. -/
def demoResp : List (String × Json) :=
  [("plan", .obj [("plan", .obj [("task_id", .str "t-1")])])]

/-- A gateway client with a configured api key and no static
headers. -/
def demoGw : GatewayClient :=
  { tenantId := "tenant-a", apiKey := some "KEY", tenantToken := none,
    staticHeaders := [] }

/-- A gateway client with a valid stored tenant and no auth
material. -/
def cexGw : GatewayClient :=
  { tenantId := "tenant-a", apiKey := none, tenantToken := none,
    staticHeaders := [] }

/-- The base endpoint of the C6 counterexample: an `http` URL whose
explicit port is `0`. -/
def c6Base : BaseURL := { scheme := "http", host := "example.com", port := some 0 }

end SoulBrowser

namespace SoulBrowser

/-- C1 counterexample: a decoded `status` event whose status value is
`cancelled` is NOT treated as terminal by the detector in the source
(both call sites test membership in the two-element set
`success/failed` only), refuting the claim that the detector returns
`true` for cancelled. -/
theorem isTerminal_cancelled_false :
    isTerminal (statusEvent "cancelled") = some false ∧
    eventKind (statusEvent "cancelled") = some "status" ∧
    statusValue (statusEvent "cancelled") = some "cancelled" := by
  refine ⟨rfl, rfl, rfl⟩

/-- C1 (amended): the terminal-state detector, applied to any decoded
event, returns `true` if and only if the event kind is `status` and
the status value is one of `success` or `failed` (not `cancelled`);
for every other event, including `running`/`queued` statuses and every
non-status kind, it does not return `true`. -/
theorem isTerminal_iff (event : Json) :
    isTerminal event = some true ↔
      (eventKind event = some "status" ∧
        (statusValue event = some "success" ∨ statusValue event = some "failed")) := by
  cases event with
  | obj fields =>
    simp only [isTerminal, eventKind, statusValue]
    cases hk : getField fields "event" with
    | none => simp
    | some kv =>
      cases kv with
      | str s =>
        by_cases hs : s = "status"
        · subst hs
          simp only [beq_self_eq_true, if_true]
          cases hst : getField fields "status" with
          | none => simp [Option.getD, getField]
          | some sv =>
            cases sv with
            | obj statusFields =>
              simp only [Option.getD]
              cases hsv : getField statusFields "status" with
              | none => simp
              | some v =>
                cases v with
                | str t => simp
                | null => simp
                | bool b => simp
                | num n => simp
                | arr xs => simp
                | obj fs2 => simp
            | null => simp [Option.getD]
            | bool b => simp [Option.getD]
            | num n => simp [Option.getD]
            | str s2 => simp [Option.getD]
            | arr xs => simp [Option.getD]
        · simp [hs]
      | null => simp
      | bool b => simp
      | num n => simp
      | arr xs => simp
      | obj fs => simp
  | null => simp [isTerminal, eventKind]
  | bool b => simp [isTerminal, eventKind]
  | num n => simp [isTerminal, eventKind]
  | str s => simp [isTerminal, eventKind]
  | arr xs => simp [isTerminal, eventKind]

/-- C2 counterexample: on the spec scenario stream (valid status frame,
the malformed frame, valid status frame, clean close), the receive
loop yields only the FIRST event and then the `json.loads` call raises
out of the generator; the consumer does not observe three events and
no synthetic error event is produced. -/
theorem malformed_frame_raises_cex :
    iterTaskStream c2Stream =
      ([statusEvent "running"], .raised (.malformedFrame malformedRaw)) ∧
    (iterTaskStream c2Stream).1.length ≠ 3 := by
  exact ⟨rfl, by decide⟩

/-- C2 (amended): for every stream containing a malformed frame after
one valid frame, the consuming caller observes exactly the first valid
event, after which the pull call raises the decode error at the
malformed frame and iteration terminates; no synthetic error event is
delivered. -/
theorem malformed_frame_raises (v1 : Json) (raw : String) (rest : List (Option Frame)) :
    iterTaskStream (some (.valid v1) :: some (.malformed raw) :: rest) =
      ([v1], .raised (.malformedFrame raw)) := rfl

/-- C3 counterexample: a well-formed frame whose kind-identifying
`event` field is missing does NOT fail with `UnknownEventShape`; the
decode step is `json.loads` alone, which succeeds and returns the raw
mapping. -/
theorem decode_no_unknown_event_shape_cex :
    jsonLoads (.valid noKindValue) = .ok noKindValue ∧
    jsonLoads (.valid noKindValue) ≠ .error .unknownEventShape := by
  refine ⟨rfl, by simp [jsonLoads]⟩

/-- C3 (amended): decode fails exactly when the frame is not
well-formed JSON, in which case the error is `MalformedFrame`; every
well-formed frame, whether or not its kind field is present or
recognized, decodes to its raw mapping and never raises, and no code
path produces `UnknownEventShape`: every decode error that reaches the
stream loop is a `MalformedFrame`. -/
theorem decode_taxonomy :
    (∀ v : Json, jsonLoads (.valid v) = .ok v) ∧
    (∀ raw : String, jsonLoads (.malformed raw) = .error (.malformedFrame raw)) ∧
    (∀ msgs e, (iterTaskStream msgs).2 = .raised e →
       ∃ raw, e = .malformedFrame raw) := by
  refine ⟨fun v => rfl, fun raw => rfl, ?_⟩
  intro msgs
  induction msgs with
  | nil => intro e h; simp [iterTaskStream] at h
  | cons m rest ih =>
    intro e h
    cases m with
    | none => simp [iterTaskStream] at h
    | some f =>
      cases f with
      | valid v =>
        simp only [iterTaskStream, jsonLoads] at h
        exact ih e h
      | malformed raw =>
        simp [iterTaskStream, jsonLoads] at h
        exact ⟨raw, h.symm⟩

/-- Witness for `decode_taxonomy`: on the one-message trace holding
the malformed frame `bad`, the loop ends with a raised error, and the
theorem identifies it as a `MalformedFrame`. -/
theorem decode_taxonomy_witness :
    ∃ raw, DecodeError.malformedFrame "bad" = DecodeError.malformedFrame raw :=
  decode_taxonomy.2.2 [some (.malformed "bad")] (.malformedFrame "bad") rfl

/-- C5 counterexample: on a trace of three frames whose middle frame
is malformed, the iteration delivers only the first frame's event —
not one event per frame: the raise at the malformed frame prevents the
third frame's event (the queued status) from ever being delivered. -/
theorem stream_order_cex :
    (iterTaskStream c5Stream).1 = [overlayEvent] ∧
    (iterTaskStream c5Stream).1.length ≠ 3 := by
  exact ⟨rfl, by decide⟩

/-- C5 (amended): the pull-based iteration delivers exactly one
decoded event per frame, in exactly the order emitted with no
reordering or coalescing, for every frame up to the stream's end or
the first malformed frame — a prefix of decodable frames is delivered
one-per-frame in order whatever follows it, while delivery stops at a
malformed frame (the pull call raises there, settled under C2); in
particular the three-frame scenario (status running, overlay, status
success) yields exactly those 3 events in order and terminal detection
fires only on the third. -/
theorem stream_delivers_prefix_in_order :
    (∀ (values : List Json) (rest : List (Option Frame)),
       iterTaskStream (values.map (fun v => some (Frame.valid v)) ++ rest) =
         (values ++ (iterTaskStream rest).1, (iterTaskStream rest).2)) ∧
    iterTaskStream scenarioStream =
      ([statusEvent "running", overlayEvent, statusEvent "success"], .closed) ∧
    (iterTaskStream scenarioStream).1.map isTerminal =
      [some false, some false, some true] := by
  refine ⟨?_, rfl, rfl⟩
  intro values rest
  induction values with
  | nil => simp
  | cons v vs ih => simp [iterTaskStream, jsonLoads, ih]

/-- Assigning a key makes it the looked-up binding. -/
theorem dictGet_dictSet_self (d : List (String × String)) (k v : String) :
    dictGet (dictSet d k v) k = some v := by
  induction d with
  | nil => simp [dictSet, dictGet]
  | cons p rest ih =>
    obtain ⟨k1, v1⟩ := p
    by_cases h : k1 = k
    · subst h; simp [dictSet, dictGet]
    · simp [dictSet, dictGet, h, ih]

/-- Assigning a key leaves every other key's lookup unchanged. -/
theorem dictGet_dictSet_ne (d : List (String × String)) (k v k2 : String)
    (h : k2 ≠ k) : dictGet (dictSet d k v) k2 = dictGet d k2 := by
  induction d with
  | nil => simp [dictSet, dictGet, Ne.symm h]
  | cons p rest ih =>
    obtain ⟨k1, v1⟩ := p
    by_cases h1 : k1 = k
    · subst h1; simp [dictSet, dictGet, Ne.symm h]
    · by_cases h2 : k1 = k2 <;> simp [dictSet, dictGet, h1, h2, h, ih]

/-- Assigning a key preserves the membership of every present key. -/
theorem containsKey_dictSet (d : List (String × String)) (k v k2 : String)
    (h : containsKey d k2 = true) : containsKey (dictSet d k v) k2 = true := by
  induction d with
  | nil => simp [containsKey] at h
  | cons p rest ih =>
    obtain ⟨k1, v1⟩ := p
    by_cases h1 : k1 = k
    · subst h1
      by_cases h2 : k1 = k2 <;> simp_all [containsKey, dictSet]
    · by_cases h2 : k1 = k2 <;> simp_all [containsKey, dictSet, h1]

/-- A present key is witnessed by a binding in the list. -/
theorem containsKey_exists (d : List (String × String)) (k : String)
    (h : containsKey d k = true) : ∃ p ∈ d, p.1 = k := by
  induction d with
  | nil => simp [containsKey] at h
  | cons q rest ih =>
    obtain ⟨k1, v1⟩ := q
    by_cases h1 : k1 = k
    · exact ⟨(k1, v1), List.mem_cons_self _ _, h1⟩
    · simp only [containsKey, h1, if_false] at h
      obtain ⟨p, hp, hpk⟩ := ih h
      exact ⟨p, List.mem_cons_of_mem _ hp, hpk⟩

/-- Updating with bindings that avoid a key leaves that key's lookup
unchanged. -/
theorem dictGet_dictUpdate_not_mem (es : List (String × String)) :
    ∀ d k, (∀ p ∈ es, p.1 ≠ k) →
      dictGet (dictUpdate d es) k = dictGet d k := by
  induction es with
  | nil => intro d k _; rfl
  | cons q rest ih =>
    intro d k h
    obtain ⟨k1, v1⟩ := q
    have h1 : k1 ≠ k := h (k1, v1) (List.mem_cons_self _ _)
    have step : dictUpdate d ((k1, v1) :: rest) = dictUpdate (dictSet d k1 v1) rest := rfl
    rw [step, ih (dictSet d k1 v1) k (fun p hp => h p (List.mem_cons_of_mem _ hp))]
    exact dictGet_dictSet_ne d k1 v1 k (Ne.symm h1)

/-- Updating with a duplicate-free binding list makes each of its
bindings the looked-up one. -/
theorem dictGet_dictUpdate_mem (es : List (String × String)) :
    ∀ d k v, (es.map Prod.fst).Nodup → (k, v) ∈ es →
      dictGet (dictUpdate d es) k = some v := by
  induction es with
  | nil => intro d k v _ hm; cases hm
  | cons q rest ih =>
    intro d k v hnd hm
    obtain ⟨k1, v1⟩ := q
    simp only [List.map_cons, List.nodup_cons] at hnd
    have step : dictUpdate d ((k1, v1) :: rest) = dictUpdate (dictSet d k1 v1) rest := rfl
    rw [step]
    rcases List.mem_cons.mp hm with he | hm2
    · injection he with hk hv
      subst hk; subst hv
      have hrest : ∀ p ∈ rest, p.1 ≠ k := by
        intro p hp he2
        exact hnd.1 (he2 ▸ List.mem_map_of_mem Prod.fst hp)
      rw [dictGet_dictUpdate_not_mem rest _ k hrest]
      exact dictGet_dictSet_self d k v
    · exact ih (dictSet d k1 v1) k v hnd.2 hm2

/-- A successful lookup implies key membership. -/
theorem containsKey_of_dictGet (d : List (String × String)) (k v : String)
    (h : dictGet d k = some v) : containsKey d k = true := by
  induction d with
  | nil => simp [dictGet] at h
  | cons q rest ih =>
    obtain ⟨k1, v1⟩ := q
    by_cases h1 : k1 = k
    · simp [containsKey, h1]
    · simp only [dictGet, h1, if_false] at h
      simp [containsKey, h1, ih h]

/-- The Authorization step does not touch other keys. -/
theorem dictGet_authStep_ne (c : GatewayClient) (hs : List (String × String))
    (k : String) (h : k ≠ "Authorization") :
    dictGet (authStep c hs) k = dictGet hs k := by
  obtain ⟨t, ak, tt, sh⟩ := c
  cases ak with
  | none => rfl
  | some key =>
    simp only [authStep]
    split
    · exact dictGet_dictSet_ne hs "Authorization" _ k h
    · rfl

/-- The tenant-token step does not touch other keys. -/
theorem dictGet_tokenStep_ne (c : GatewayClient) (hs : List (String × String))
    (k : String) (h : k ≠ "x-tenant-token") :
    dictGet (tokenStep c hs) k = dictGet hs k := by
  obtain ⟨t, ak, tt, sh⟩ := c
  cases tt with
  | none => rfl
  | some tok =>
    simp only [tokenStep]
    split
    · exact dictGet_dictSet_ne hs "x-tenant-token" _ k h
    · rfl

/-- The Authorization step leaves the lookup of every already-present
key unchanged (when the key is `Authorization` itself, the
case-insensitive guard prevents the assignment). -/
theorem dictGet_authStep_mem (c : GatewayClient) (hs : List (String × String))
    (k : String) (hk : containsKey hs k = true) :
    dictGet (authStep c hs) k = dictGet hs k := by
  by_cases h : k = "Authorization"
  · subst h
    obtain ⟨t, ak, tt, sh⟩ := c
    cases ak with
    | none => rfl
    | some key =>
      simp only [authStep]
      split
      · rename_i hcond
        exfalso
        obtain ⟨p, hp, hpk⟩ := containsKey_exists hs "Authorization" hk
        have hall := hcond.2
        simp only [List.all_eq_true, decide_eq_true_eq] at hall
        exact hall p hp (by rw [hpk]; decide)
      · rfl
  · exact dictGet_authStep_ne c hs k h

/-- The tenant-token step leaves the lookup of every already-present
key unchanged (when the key is `x-tenant-token` itself, the membership
guard prevents the assignment). -/
theorem dictGet_tokenStep_mem (c : GatewayClient) (hs : List (String × String))
    (k : String) (hk : containsKey hs k = true) :
    dictGet (tokenStep c hs) k = dictGet hs k := by
  by_cases h : k = "x-tenant-token"
  · subst h
    obtain ⟨t, ak, tt, sh⟩ := c
    cases tt with
    | none => rfl
    | some tok =>
      simp only [tokenStep]
      split
      · rename_i hcond
        exfalso
        obtain ⟨p, hp, hpk⟩ := containsKey_exists hs "x-tenant-token" hk
        have hall := hcond.2
        simp only [List.all_eq_true, decide_eq_true_eq] at hall
        exact hall p hp hpk
      · rfl
  · exact dictGet_tokenStep_ne c hs k h

/-- The Authorization step preserves key membership. -/
theorem containsKey_authStep (c : GatewayClient) (hs : List (String × String))
    (k : String) (hk : containsKey hs k = true) :
    containsKey (authStep c hs) k = true := by
  obtain ⟨t, ak, tt, sh⟩ := c
  cases ak with
  | none => exact hk
  | some key =>
    simp only [authStep]
    split
    · exact containsKey_dictSet hs "Authorization" _ k hk
    · exact hk

/-- C6 counterexample: for the base URL `http://example.com:0`, the
code maps the explicit port `0` to the scheme default `80` (Python
`base.port or ...` treats `0` as falsy), while the claimed derivation
preserves the port; the two URLs differ. -/
theorem ws_url_port_zero_cex :
    buildWsUrl c6Base "/api/tasks/t-1/stream" =
      "ws://example.com:80/api/tasks/t-1/stream" ∧
    wsUrlClaimed c6Base "/api/tasks/t-1/stream" =
      "ws://example.com:0/api/tasks/t-1/stream" ∧
    buildWsUrl c6Base "/api/tasks/t-1/stream" ≠
      wsUrlClaimed c6Base "/api/tasks/t-1/stream" := by
  refine ⟨by decide, by decide, by decide⟩

/-- C6 (amended): for every base endpoint URL, the derived socket URL
upgrades the scheme (`https` to `wss`, any other scheme to `ws`),
preserves the host, preserves the port except that a missing port or
an explicit port `0` is defaulted to 443 for `wss` and 80 for `ws`,
and appends the locator path unchanged. -/
theorem ws_url_spec (base : BaseURL) (path : String) :
    buildWsUrl base path = wsUrlAmended base path := by
  unfold buildWsUrl wsUrlAmended
  cases base.port with
  | none => by_cases h : base.scheme = "https" <;> simp [h]
  | some p =>
    by_cases h : base.scheme = "https" <;> by_cases hz : p = 0 <;>
      simp [h, hz]

/-- C7: the submission phase fails (with the `SystemExit` that
realizes `SubmissionRejected`) whenever the chat response carries no
task identifier — missing, `None`, or empty — and in that case no
stream is opened; when the response carries a non-empty task id
string, the phase proceeds with the pair of that task id and the
stream locator derived from it. -/
theorem submit_task_id_contract (resp : List (String × Json))
    (plan : List (String × Json)) (g : Bool)
    (hplan : planFields resp = some plan) :
    (getField plan "task_id" = none → submitPhase resp g = .rejected) ∧
    (getField plan "task_id" = some .null → submitPhase resp g = .rejected) ∧
    (getField plan "task_id" = some (.str "") → submitPhase resp g = .rejected) ∧
    (∀ s : String, getField plan "task_id" = some (.str s) → s ≠ "" →
       submitPhase resp g = .accepted s (taskStreamPath s g)) := by
  unfold submitPhase
  rw [hplan]
  refine ⟨?_, ?_, ?_, ?_⟩
  · intro h; simp [h, pyTruthy]
  · intro h; simp [h, pyTruthy]
  · intro h; simp [h, pyTruthy]
  · intro s h hs; simp [h, pyTruthy, pyStr, hs]

/-- Witness for `submit_task_id_contract`: a chat response whose plan
carries the task id `t-1` is accepted with the default (non-gateway)
stream locator. -/
theorem submit_task_id_contract_witness :
    submitPhase demoResp false = .accepted "t-1" "/api/tasks/t-1/stream" :=
  (submit_task_id_contract demoResp [("task_id", Json.str "t-1")] false rfl).2.2.2
    "t-1" rfl (by decide)

/-- C8: `close` is idempotent — a second call succeeds (the method is
a total function) and leaves the state identical to the state after
the first call. -/
theorem close_idempotent (s : ClientState) : close (close s) = close s := by
  by_cases h : s.ownsHttp <;> simp [close, h]

/-- C9 counterexample: a per-call header override binding
`x-tenant-id` to the empty string makes the built request carry an
EMPTY `x-tenant-id` header even though the stored tenant is non-empty,
refuting the claim that every built request carries a non-empty
`x-tenant-id`. -/
theorem tenant_header_empty_override_cex :
    dictGet (buildHeaders cexGw none (some [("x-tenant-id", "")]))
        "x-tenant-id" = some "" ∧
    ¬ ∃ v, dictGet (buildHeaders cexGw none (some [("x-tenant-id", "")]))
        "x-tenant-id" = some v ∧ v ≠ "" := by
  have h0 : dictGet (buildHeaders cexGw none (some [("x-tenant-id", "")]))
      "x-tenant-id" = some "" := by decide
  refine ⟨h0, ?_⟩
  rintro ⟨v, hv, hne⟩
  rw [h0] at hv
  exact hne (Option.some.inj hv).symm

/-- C9 (amended): the constructor raises `ValueError` on an empty
tenant id and otherwise stores the given one; `set_tenant` raises on
an empty tenant id leaving the stored tenant unchanged, and stores a
non-empty one; and every request whose static headers and per-call
header overrides do not themselves bind `x-tenant-id` carries the
non-empty tenant — the per-call tenant argument when truthy, else the
stored tenant. -/
theorem tenant_header_invariant :
    (∀ ak tt hs, mkGatewayClient "" ak tt hs = .error "tenant_id is required") ∧
    (∀ t ak tt hs, t ≠ "" → mkGatewayClient t ak tt hs =
       .ok { tenantId := t, apiKey := ak, tenantToken := tt,
             staticHeaders := hs.getD [] }) ∧
    (∀ c : GatewayClient, setTenant c "" = (c, true)) ∧
    (∀ (c : GatewayClient) t, t ≠ "" →
       setTenant c t = ({ c with tenantId := t }, false)) ∧
    (∀ (c : GatewayClient) (tid : Option String)
       (ov : Option (List (String × String))),
       c.tenantId ≠ "" →
       (∀ p ∈ c.staticHeaders, p.1 ≠ "x-tenant-id") →
       (∀ p ∈ ov.getD [], p.1 ≠ "x-tenant-id") →
       dictGet (buildHeaders c tid ov) "x-tenant-id" =
         some (pyOrStr tid c.tenantId) ∧
       pyOrStr tid c.tenantId ≠ "") := by
  refine ⟨fun ak tt hs => rfl, ?_, fun c => rfl, ?_, ?_⟩
  · intro t ak tt hs ht
    simp [mkGatewayClient, ht]
  · intro c t ht
    simp [setTenant, ht]
  · intro c tid ov hc hstat hov
    constructor
    · unfold buildHeaders
      rw [dictGet_tokenStep_ne c _ "x-tenant-id" (by decide),
          dictGet_authStep_ne c _ "x-tenant-id" (by decide)]
      unfold mergedHeaders
      rw [dictGet_dictUpdate_not_mem (ov.getD []) _ "x-tenant-id" hov,
          dictGet_dictUpdate_not_mem c.staticHeaders _ "x-tenant-id" hstat]
      simp [dictGet]
    · cases tid with
      | none => exact hc
      | some s =>
        by_cases hs : s = ""
        · subst hs
          simp only [pyOrStr, if_pos rfl]
          exact hc
        · simp only [pyOrStr, if_neg hs]
          exact hs

/-- Witness for `tenant_header_invariant`: a client with stored tenant
`tenant-a`, no auth material, no static headers and no per-call
arguments builds a request carrying `x-tenant-id: tenant-a`. -/
theorem tenant_header_invariant_witness :
    dictGet (buildHeaders cexGw none none) "x-tenant-id" = some "tenant-a" ∧
    ("tenant-a" : String) ≠ "" :=
  tenant_header_invariant.2.2.2.2 cexGw none none (by decide) (by decide)
    (by decide)

/-- C10: when any already-present header key equals `authorization`
ignoring case, the api key is not added (the Authorization step is a
no-op); every key present after the merge keeps its merged value
through the build; when an api key is configured (truthy) and no
merged key lowercases to `authorization`, the built headers carry
`Authorization: Bearer <api_key>`; and per-call overrides always take
precedence — each override binding is the value the built headers
carry for its key. -/
theorem build_headers_auth_and_precedence :
    (∀ (c : GatewayClient) (tid : Option String)
       (ov : Option (List (String × String))),
       (∃ p ∈ mergedHeaders c tid ov, lowerKey p.1 = "authorization") →
       authStep c (mergedHeaders c tid ov) = mergedHeaders c tid ov) ∧
    (∀ c tid ov k, containsKey (mergedHeaders c tid ov) k = true →
       dictGet (buildHeaders c tid ov) k = dictGet (mergedHeaders c tid ov) k) ∧
    (∀ c tid ov key, GatewayClient.apiKey c = some key → key ≠ "" →
       (∀ p ∈ mergedHeaders c tid ov, ¬ lowerKey p.1 = "authorization") →
       dictGet (buildHeaders c tid ov) "Authorization" =
         some ("Bearer " ++ key)) ∧
    (∀ c tid (ov : List (String × String)) k v,
       (ov.map Prod.fst).Nodup → (k, v) ∈ ov →
       dictGet (buildHeaders c tid (some ov)) k = some v) := by
  refine ⟨?_, ?_, ?_, ?_⟩
  · intro c tid ov h
    obtain ⟨p, hp, hpl⟩ := h
    obtain ⟨t, ak, tt, sh⟩ := c
    cases ak with
    | none => rfl
    | some key =>
      simp only [authStep]
      split
      · rename_i hcond
        exfalso
        have hall := hcond.2
        simp only [List.all_eq_true, decide_eq_true_eq] at hall
        exact hall p hp hpl
      · rfl
  · intro c tid ov k hk
    unfold buildHeaders
    rw [dictGet_tokenStep_mem c _ k (containsKey_authStep c _ k hk),
        dictGet_authStep_mem c _ k hk]
  · intro c tid ov key hA hkey hall
    unfold buildHeaders
    rw [dictGet_tokenStep_ne c _ "Authorization" (by decide)]
    simp only [authStep, hA]
    rw [if_pos ⟨hkey, by
      simp only [List.all_eq_true, decide_eq_true_eq]; exact hall⟩]
    exact dictGet_dictSet_self _ "Authorization" ("Bearer " ++ key)
  · intro c tid ov k v hnd hm
    have hmer : dictGet (mergedHeaders c tid (some ov)) k = some v :=
      dictGet_dictUpdate_mem ov _ k v hnd hm
    have hck := containsKey_of_dictGet _ k v hmer
    unfold buildHeaders
    rw [dictGet_tokenStep_mem c _ k (containsKey_authStep c _ k hck),
        dictGet_authStep_mem c _ k hck]
    exact hmer

/-- Witness for `build_headers_auth_and_precedence`: a client with api
key `KEY`, no static headers and no overrides builds a request
carrying `Authorization: Bearer KEY`. -/
theorem build_headers_witness :
    dictGet (buildHeaders demoGw none none) "Authorization" =
      some "Bearer KEY" :=
  build_headers_auth_and_precedence.2.2.1 demoGw none none "KEY" rfl
    (by decide) (by decide)

end SoulBrowser
